import Mathlib

/-!
Verification development for the dianyaapi streaming session bridge.

The embedding follows the source crate: `types.rs` (enum parsers) and
`transcribe_stream.rs` (the `TranscribeStream` pyclass).  The behaviour of the
external collaborators (`TranscribeWs` from the `transcribe` crate, the
`Valved` stream wrapper from `stream_cancel`, and `tokio::time::timeout`) is
modelled from the specification, as marked on each definition.
-/

namespace Dianya

/-- Error taxonomy crossing the host boundary; `InvalidInput` is the variant
`common::Error::InvalidInput` raised by the parsers in `types.rs`,
`Connection` and `Transport` model the failure kinds of `start` and `write`
described in the specification. -/
inductive Error where
  | InvalidInput (msg : String)
  | Connection (msg : String)
  | Transport (msg : String)
deriving DecidableEq, Repr

/-- The model enumeration `ModelType` from the `transcribe` crate, as used by
`parse_model` in `types.rs`. -/
inductive ModelType where
  | Speed
  | Quality
  | QualityV2
deriving DecidableEq, Repr

/-- The export type enumeration used by `parse_export_type` in `types.rs`. -/
inductive ExportType where
  | Transcript
  | Overview
  | Summary
deriving DecidableEq, Repr

/-- The export format enumeration used by `parse_export_format` in `types.rs`. -/
inductive ExportFormat where
  | Pdf
  | Txt
  | Docx
deriving DecidableEq, Repr

/-- The language enumeration used by `parse_language` in `types.rs`. -/
inductive Language where
  | ChineseSimplified
  | EnglishUS
  | Japanese
  | Korean
  | French
  | German
deriving DecidableEq, Repr

instance {ε α : Type} [DecidableEq ε] [DecidableEq α] : DecidableEq (Except ε α) := fun x y =>
  match x, y with
  | Except.ok a, Except.ok b =>
      if h : a = b then Decidable.isTrue (by rw [h]) else Decidable.isFalse (by simp [h])
  | Except.ok _, Except.error _ => Decidable.isFalse (by simp)
  | Except.error _, Except.ok _ => Decidable.isFalse (by simp)
  | Except.error e, Except.error f =>
      if h : e = f then Decidable.isTrue (by rw [h]) else Decidable.isFalse (by simp [h])

/-- ASCII lowercasing of one character, mirroring what Rust
`str::to_ascii_lowercase` does to each character: code points 65 to 90 are
shifted by 32, everything else is unchanged.  This is exactly core
`Char.toLower`; we restate it by name to match the source. -/
def asciiLowerChar (c : Char) : Char := Char.toLower c

/-- Rust `str::to_ascii_lowercase`, applied characterwise. -/
def to_ascii_lowercase (s : String) : String := String.mk (s.data.map asciiLowerChar)

/-- Embedding of `parse_model` from `types.rs`: match on the ASCII-lowercased
input against the three accepted model names, otherwise an `InvalidInput`
error mentioning the lowercased input. -/
def parse_model (value : String) : Except Error ModelType :=
  let lowered := to_ascii_lowercase value
  if lowered = "speed" then Except.ok ModelType.Speed
  else if lowered = "quality" then Except.ok ModelType.Quality
  else if lowered = "quality_v2" then Except.ok ModelType.QualityV2
  else Except.error (Error.InvalidInput
    ("unsupported model " ++ lowered ++ " (expected speed quality or quality_v2)"))

/-- Embedding of `parse_export_type` from `types.rs`. -/
def parse_export_type (value : String) : Except Error ExportType :=
  let lowered := to_ascii_lowercase value
  if lowered = "transcript" then Except.ok ExportType.Transcript
  else if lowered = "overview" then Except.ok ExportType.Overview
  else if lowered = "summary" then Except.ok ExportType.Summary
  else Except.error (Error.InvalidInput ("unsupported export type " ++ lowered))

/-- Embedding of `parse_export_format` from `types.rs`. -/
def parse_export_format (value : String) : Except Error ExportFormat :=
  let lowered := to_ascii_lowercase value
  if lowered = "pdf" then Except.ok ExportFormat.Pdf
  else if lowered = "txt" then Except.ok ExportFormat.Txt
  else if lowered = "docx" then Except.ok ExportFormat.Docx
  else Except.error (Error.InvalidInput ("unsupported export format " ++ lowered))

/-- Embedding of `parse_language` from `types.rs`; the Rust match arms
`"zh" | "zh-cn"`, `"en" | "en-us"` and `"ko" | "kr" | "jp"` become chained
disjunctions. -/
def parse_language (value : String) : Except Error Language :=
  let lowered := to_ascii_lowercase value
  if lowered = "zh" ∨ lowered = "zh-cn" then Except.ok Language.ChineseSimplified
  else if lowered = "en" ∨ lowered = "en-us" then Except.ok Language.EnglishUS
  else if lowered = "ja" then Except.ok Language.Japanese
  else if lowered = "ko" ∨ lowered = "kr" ∨ lowered = "jp" then Except.ok Language.Korean
  else if lowered = "fr" then Except.ok Language.French
  else if lowered = "de" then Except.ok Language.German
  else Except.error (Error.InvalidInput ("unsupported language code " ++ lowered))

/-! ### The streaming session bridge (`transcribe_stream.rs`)

The `TranscribeStream` pyclass holds two independently locked components:
`ws : Arc(Mutex(TranscribeWs))` and
`stream : Arc(Mutex(Valved(...inbound frame stream...)))`.
The state of `TranscribeWs` and the behaviour of the valved stream live in
external crates, so they are modelled from the specification below; the
`TranscribeStream` methods themselves follow `transcribe_stream.rs` line by
line. -/

/-- Modelled from the spec: the connection state of the underlying
`TranscribeWs` (missing from this crate), state set Idle, Starting, Open,
Closed, Failed per section 3 of the specification. -/
inductive ConnState where
  | Idle
  | Starting
  | Open
  | Closed
  | Failed
deriving DecidableEq, Repr

/-- Modelled from the spec: the `TranscribeWs` connection object from the
external `transcribe` crate: a socket handle addressed by the session id plus
a connection state. -/
structure TranscribeWs where
  sessionId : String
  state : ConnState
  socketHeld : Bool
deriving DecidableEq, Repr

/-- Modelled from the spec: the valved inbound frame stream returned by
`TranscribeWs::subscribe` (`Valved` from the external `stream_cancel` crate):
a cancellation flag (the valve trigger fired by `stop`) plus the queue of
inbound frames not yet consumed. -/
structure Subscription where
  cancelled : Bool
  pending : List String
deriving DecidableEq, Repr

/-- Modelled from the spec: `TranscribeWs::new` constructs the connection in
Idle state with the socket not yet acquired. -/
def TranscribeWs.new (session_id : String) : TranscribeWs :=
  { sessionId := session_id, state := ConnState.Idle, socketHeld := false }

/-- Modelled from the spec: `TranscribeWs::subscribe` derives a fresh, not yet
cancelled subscription with no frame buffered yet. -/
def TranscribeWs.subscribe (_w : TranscribeWs) : Subscription :=
  { cancelled := false, pending := [] }

/-- Modelled from the spec: `TranscribeWs::start` performs the handshake
(outcome abstracted as `handshakeOk`): Idle to Open acquiring the socket on
success, Idle to Failed with a connection error on rejection, an idempotent
no-op when already Open. -/
def TranscribeWs.start (w : TranscribeWs) (handshakeOk : Bool) :
    Except Error Unit × TranscribeWs :=
  if w.state = ConnState.Open then (Except.ok (), w)
  else if handshakeOk then
    (Except.ok (), { w with state := ConnState.Open, socketHeld := true })
  else
    (Except.error (Error.Connection "handshake rejected"),
     { w with state := ConnState.Failed })

/-- Modelled from the spec: `TranscribeWs::stop` moves the connection to
Closed and releases the socket handle unconditionally; release errors are
logged, never re-raised, so the call always succeeds. -/
def TranscribeWs.stop (w : TranscribeWs) : TranscribeWs :=
  { w with state := ConnState.Closed, socketHeld := false }

/-- An outbound frame, mirroring the two `tungstenite::Message` constructors
used by `send_text` and `send_bytes`. -/
inductive Message where
  | text (payload : String)
  | binary (payload : List Nat)
deriving DecidableEq, Repr

/-- Modelled from the spec: `TranscribeWs::write` sends one frame while the
connection is Open or Starting and fails with a transport error otherwise; no
internal retry, and the connection state is not changed by a send. -/
def TranscribeWs.write (w : TranscribeWs) (_m : Message) : Except Error TranscribeWs :=
  if w.state = ConnState.Open ∨ w.state = ConnState.Starting then Except.ok w
  else Except.error (Error.Transport "connection not open")

/-- The timeout argument of `read_next` is a Python float; for the embedding a
float is either NaN or a real numeric value (a rational).  The only use the
code makes of it is the comparison with 0.0, on which NaN compares false. -/
inductive FloatVal where
  | nan
  | val (q : ℚ)
deriving DecidableEq

/-- The Rust predicate `*value >= 0.0` on an `f64`: false on NaN, otherwise
the numeric comparison. -/
def FloatVal.ge0 : FloatVal → Bool
  | FloatVal.nan => false
  | FloatVal.val q => decide (0 ≤ q)

/-- The four ways one `read_next` poll can end: a frame is yielded, the wait
is cut by the timeout, the valved stream has ended, or (with no timeout and
no frame) the call stays suspended. -/
inductive ReadOutcome where
  | frame (s : String)
  | timedOut
  | streamEnded
  | blocks
deriving DecidableEq, Repr

/-- How the returning outcomes cross the host boundary in `read_next`
(`Ok(Some(message))` for a frame, `Ok(None)` for both timeout and stream
end); `none` marks the suspended case, which never returns. -/
def ReadOutcome.toHost : ReadOutcome → Option (Option String)
  | ReadOutcome.frame s => some (some s)
  | ReadOutcome.timedOut => some none
  | ReadOutcome.streamEnded => some none
  | ReadOutcome.blocks => none

/-- One `read_next` poll on the subscription, following the async block of
`TranscribeStream::read_next`: the timeout is kept only when nonnegative
(`timeout.filter` in the source); a cancelled valve yields stream end at
once; otherwise the next pending frame is consumed if there is one, and an
empty queue either times out (leaving the queue untouched, per the resumable
poll model of the spec) or stays suspended when no timeout was kept. -/
def Subscription.read_next (sub : Subscription) (timeout : Option FloatVal) :
    ReadOutcome × Subscription :=
  let duration := timeout.filter FloatVal.ge0
  if sub.cancelled then (ReadOutcome.streamEnded, sub)
  else
    match sub.pending with
    | f :: rest => (ReadOutcome.frame f, { sub with pending := rest })
    | [] =>
      match duration with
      | some _ => (ReadOutcome.timedOut, sub)
      | none => (ReadOutcome.blocks, sub)

/-- Modelled from the spec: delivery of one inbound frame from the remote.  A
fired valve drops the source, so nothing is delivered after cancellation. -/
def Subscription.arrive (sub : Subscription) (f : String) : Subscription :=
  if sub.cancelled then sub else { sub with pending := sub.pending ++ [f] }

/-- The `TranscribeStream` pyclass: the two independently locked components
of `transcribe_stream.rs` lines 14 to 18. -/
structure TranscribeStream where
  ws : TranscribeWs
  stream : Subscription
deriving DecidableEq, Repr

/-- `TranscribeStream::new`: builds the `TranscribeWs` for the session id and
derives the subscription at once, inside the constructor. -/
def TranscribeStream.new (session_id : String) : TranscribeStream :=
  let ws := TranscribeWs.new session_id
  let stream := ws.subscribe
  { ws := ws, stream := stream }

/-- `TranscribeStream::start`: locks `ws` only and runs the handshake; the
commented-out re-subscription of the source is absent, so the subscription
component is untouched. -/
def TranscribeStream.start (ts : TranscribeStream) (handshakeOk : Bool) :
    Except Error Unit × TranscribeStream :=
  let (r, w) := ts.ws.start handshakeOk
  (r, { ts with ws := w })

/-- `TranscribeStream::stop`: locks `ws` only and calls `TranscribeWs::stop`,
whose valve trigger cancels the attached subscription; always returns unit
success. -/
def TranscribeStream.stop (ts : TranscribeStream) : Except Error Unit × TranscribeStream :=
  (Except.ok (),
   { ws := ts.ws.stop, stream := { ts.stream with cancelled := true } })

/-- `TranscribeStream::send_text`: locks `ws` only and writes one text
frame; a failed write leaves the state as it was. -/
def TranscribeStream.send_text (ts : TranscribeStream) (payload : String) :
    Except Error Unit × TranscribeStream :=
  match ts.ws.write (Message.text payload) with
  | Except.ok w => (Except.ok (), { ts with ws := w })
  | Except.error e => (Except.error e, ts)

/-- `TranscribeStream::send_bytes`: locks `ws` only and writes one binary
frame. -/
def TranscribeStream.send_bytes (ts : TranscribeStream) (payload : List Nat) :
    Except Error Unit × TranscribeStream :=
  match ts.ws.write (Message.binary payload) with
  | Except.ok w => (Except.ok (), { ts with ws := w })
  | Except.error e => (Except.error e, ts)

/-- `TranscribeStream::read_next`: locks the subscription only and polls it;
the `ws` component is never touched. -/
def TranscribeStream.read_next (ts : TranscribeStream) (timeout : Option FloatVal) :
    ReadOutcome × TranscribeStream :=
  let (o, sub) := ts.stream.read_next timeout
  (o, { ts with stream := sub })

/-- `TranscribeStream::create_session` up to the point the claims reach: the
model string is parsed before the async network future is built, so a parse
failure returns at once; the boolean records whether the network step was
reached. -/
def TranscribeStream.create_session (model : String) (_token : String) :
    Except Error ModelType × Bool :=
  match parse_model model with
  | Except.error e => (Except.error e, false)
  | Except.ok m => (Except.ok m, true)

/-- `TranscribeApi::transcribe_upload` from `transcribe_wrapper.rs` up to the
point the claims reach: exactly like `create_session`, the model string is
parsed before the async network future is built, so a parse failure returns
at once; the boolean records whether the network step was reached. -/
def TranscribeApi.transcribe_upload (_filepath : String)
    (_transcribe_only _short_asr : Bool) (model : String) (_token : String) :
    Except Error ModelType × Bool :=
  match parse_model model with
  | Except.error e => (Except.error e, false)
  | Except.ok m => (Except.ok m, true)

/-- Everything that can happen to a `TranscribeStream` after construction:
the five host-facing methods plus delivery of an inbound frame by the
remote. -/
inductive Event where
  | start (handshakeOk : Bool)
  | stop
  | send_text (payload : String)
  | send_bytes (payload : List Nat)
  | read_next (timeout : Option FloatVal)
  | arrive (f : String)
deriving DecidableEq

/-- The state reached after one event; results of the host calls are
delivered to the awaiting caller and do not feed back into the state. -/
def applyEvent (ev : Event) (ts : TranscribeStream) : TranscribeStream :=
  match ev with
  | Event.start ok => (ts.start ok).2
  | Event.stop => ts.stop.2
  | Event.send_text s => (ts.send_text s).2
  | Event.send_bytes b => (ts.send_bytes b).2
  | Event.read_next t => (ts.read_next t).2
  | Event.arrive f => { ts with stream := ts.stream.arrive f }

/-- The state reached after a whole sequence of events, first event first. -/
def applyEvents (evs : List Event) (ts : TranscribeStream) : TranscribeStream :=
  evs.foldl (fun s ev => applyEvent ev s) ts

/-- The two mutex locks of the `TranscribeStream` pyclass: the one guarding
`ws` and the one guarding the subscription. -/
inductive LockId where
  | wsLock
  | streamLock
deriving DecidableEq, Repr

/-- The five host-facing methods, by name, for stating which locks each
acquires. -/
inductive OpKind where
  | start
  | stop
  | sendText
  | sendBytes
  | readNext
deriving DecidableEq, Repr

/-- The locks acquired by each method, read off the async blocks of
`transcribe_stream.rs`: `start`, `stop`, `send_text` and `send_bytes` lock
`self.ws` only; `read_next` locks `self.stream` only. -/
def locksOf : OpKind → List LockId
  | OpKind.start => [LockId.wsLock]
  | OpKind.stop => [LockId.wsLock]
  | OpKind.sendText => [LockId.wsLock]
  | OpKind.sendBytes => [LockId.wsLock]
  | OpKind.readNext => [LockId.streamLock]

/-! ### Helper lemmas -/

/-- A valid code point round-trips through `Char.ofNat`. -/
theorem toNat_ofNat_of_valid (n : Nat) (h : n.isValidChar) : (Char.ofNat n).toNat = n := by
  unfold Char.ofNat
  rw [dif_pos h]
  rfl

/-- ASCII lowercasing a character twice is the same as doing it once. -/
theorem asciiLowerChar_idem (c : Char) : asciiLowerChar (asciiLowerChar c) = asciiLowerChar c := by
  unfold asciiLowerChar Char.toLower
  by_cases h : c.toNat ≥ 65 ∧ c.toNat ≤ 90
  · rw [if_pos h]
    have hv : (c.toNat + 32).isValidChar := by
      unfold Nat.isValidChar
      left
      omega
    have ht : (Char.ofNat (c.toNat + 32)).toNat = c.toNat + 32 := toNat_ofNat_of_valid _ hv
    rw [ht, if_neg (by omega)]
  · rw [if_neg h, if_neg h]

/-- ASCII lowercasing a string is idempotent. -/
theorem to_ascii_lowercase_idem (s : String) :
    to_ascii_lowercase (to_ascii_lowercase s) = to_ascii_lowercase s := by
  unfold to_ascii_lowercase
  cases s with
  | mk data =>
    simp only [String.data]
    rw [List.map_map]
    congr 1
    apply List.map_congr_left
    intro c _
    exact asciiLowerChar_idem c

/-- A poll never changes the cancellation flag of the subscription. -/
theorem read_next_cancelled (sub : Subscription) (t : Option FloatVal) :
    ((sub.read_next t).2).cancelled = sub.cancelled := by
  unfold Subscription.read_next
  by_cases hc : sub.cancelled <;> cases hp : sub.pending <;>
    cases hd : t.filter FloatVal.ge0 <;> simp [hc, hp, hd]

/-- Once the valve is cancelled, no single event restores it. -/
theorem stream_cancelled_applyEvent (ev : Event) (ts : TranscribeStream)
    (h : ts.stream.cancelled = true) : (applyEvent ev ts).stream.cancelled = true := by
  cases ev with
  | start ok => exact h
  | stop => rfl
  | send_text s =>
    cases hw : ts.ws.write (Message.text s) <;>
      simp [applyEvent, TranscribeStream.send_text, hw, h]
  | send_bytes b =>
    cases hw : ts.ws.write (Message.binary b) <;>
      simp [applyEvent, TranscribeStream.send_bytes, hw, h]
  | read_next t =>
    show ((ts.stream.read_next t).2).cancelled = true
    rw [read_next_cancelled]
    exact h
  | arrive f =>
    show ((ts.stream.arrive f)).cancelled = true
    simp [Subscription.arrive, h]

/-- Once the valve is cancelled, no sequence of events restores it. -/
theorem stream_cancelled_applyEvents (evs : List Event) :
    ∀ ts : TranscribeStream, ts.stream.cancelled = true →
      (applyEvents evs ts).stream.cancelled = true := by
  induction evs with
  | nil => intro ts h; exact h
  | cons ev rest ih =>
    intro ts h
    exact ih _ (stream_cancelled_applyEvent ev ts h)

/-! ### Claim theorems -/

/-- C1: after `stop()` has completed, every subsequent `read_next` call, with
any timeout or none, and after any further sequence of host calls and frame
arrivals, resolves to the stream-ended outcome (so it returns at once, never
suspending); the subscription is never restartable. -/
theorem read_next_after_stop_streamEnded (ts : TranscribeStream) (evs : List Event)
    (t : Option FloatVal) :
    (((applyEvents evs (ts.stop.2)).read_next t).1) = ReadOutcome.streamEnded := by
  have h : ((applyEvents evs (ts.stop.2)).stream).cancelled = true :=
    stream_cancelled_applyEvents evs (ts.stop.2) rfl
  show (((applyEvents evs (ts.stop.2)).stream.read_next t).1) = ReadOutcome.streamEnded
  unfold Subscription.read_next
  simp [h]

/-- C2: `stop()` is idempotent: both the first and a repeated call succeed,
and the state after two calls equals the state after one, on both the
connection and the subscription component. -/
theorem stop_idempotent (ts : TranscribeStream) :
    ts.stop.1 = Except.ok () ∧ ((ts.stop.2).stop).1 = Except.ok () ∧
    ((ts.stop.2).stop).2 = ts.stop.2 :=
  ⟨rfl, rfl, rfl⟩

/-- C3: every returning outcome of a `read_next` poll crosses the host
boundary as exactly one of `some` string, produced precisely by a frame, or
the absent value, produced precisely by a timeout or by stream end, the two
non-frame outcomes being collapsed. -/
theorem read_next_host_collapse (sub : Subscription) (t : Option FloatVal) (s : String) :
    ((((sub.read_next t).1).toHost = some (some s)) ↔
      (sub.read_next t).1 = ReadOutcome.frame s) ∧
    ((((sub.read_next t).1).toHost = some none) ↔
      ((sub.read_next t).1 = ReadOutcome.timedOut ∨
       (sub.read_next t).1 = ReadOutcome.streamEnded)) := by
  cases ho : (sub.read_next t).1 <;> simp [ReadOutcome.toHost]

/-- C4: a poll that ends in a timeout consumes nothing, leaving the
subscription exactly as it was; a frame delivered after the timed-out call is
returned by the next `read_next` call, whatever its timeout. -/
theorem timeout_consumes_nothing (sub : Subscription) (tv : FloatVal)
    (h : (sub.read_next (some tv)).1 = ReadOutcome.timedOut) :
    (sub.read_next (some tv)).2 = sub ∧
    ∀ f t2, ((((sub.read_next (some tv)).2).arrive f).read_next t2).1 =
      ReadOutcome.frame f := by
  have hcp : sub.cancelled = false ∧ sub.pending = [] := by
    by_cases hc : sub.cancelled
    · simp [Subscription.read_next, hc] at h
    · cases hp : sub.pending with
      | nil => exact ⟨by simpa using hc, rfl⟩
      | cons a l => simp [Subscription.read_next, hc, hp] at h
  obtain ⟨hc, hp⟩ := hcp
  have h2 : (sub.read_next (some tv)).2 = sub := by
    cases hd : (some tv).filter FloatVal.ge0 <;>
      simp [Subscription.read_next, hc, hp, hd]
  refine ⟨h2, fun f t2 => ?_⟩
  rw [h2]
  simp [Subscription.arrive, Subscription.read_next, hc, hp]

/-- Witness for C4 at a concrete open, empty subscription with a one second
timeout and the concrete frame hello arriving after the timed-out call. -/
theorem timeout_consumes_nothing_witness :
    (((Subscription.mk false []).read_next (some (FloatVal.val 1))).1 =
      ReadOutcome.timedOut) ∧
    (((Subscription.mk false []).read_next (some (FloatVal.val 1))).2 =
      Subscription.mk false []) ∧
    ((((((Subscription.mk false []).read_next (some (FloatVal.val 1))).2).arrive
      "hello").read_next none).1 = ReadOutcome.frame "hello") :=
  ⟨by decide,
   (timeout_consumes_nothing (Subscription.mk false []) (FloatVal.val 1) (by decide)).1,
   (timeout_consumes_nothing (Subscription.mk false []) (FloatVal.val 1) (by decide)).2
     "hello" none⟩

/-- C5: the subscription is derived and attached synchronously inside the
constructor of `TranscribeStream`, before `start` is ever invoked, and
`start` neither creates nor replaces it. -/
theorem subscription_attached_at_construction :
    (∀ session_id, (TranscribeStream.new session_id).stream =
      (TranscribeWs.new session_id).subscribe) ∧
    (∀ (ts : TranscribeStream) (handshakeOk : Bool),
      ((ts.start handshakeOk).2).stream = ts.stream) :=
  ⟨fun _ => rfl, fun _ _ => rfl⟩

/-- C6: `read_next` acquires only the subscription lock and leaves the `ws`
component untouched, while every mutating method acquires only the `ws` lock;
the two lock footprints are disjoint for every read-mutator pair. -/
theorem read_write_locks_disjoint :
    locksOf OpKind.readNext = [LockId.streamLock] ∧
    (∀ k, k ≠ OpKind.readNext → locksOf k = [LockId.wsLock]) ∧
    (∀ k, k ≠ OpKind.readNext → (locksOf OpKind.readNext).inter (locksOf k) = []) ∧
    (∀ (ts : TranscribeStream) (t : Option FloatVal), ((ts.read_next t).2).ws = ts.ws) := by
  refine ⟨rfl, ?_, ?_, fun ts t => rfl⟩ <;>
    intro k hk <;> cases k <;> first | rfl | decide | exact absurd rfl hk

/-- Witness for C6 at the concrete pair `read_next` and `stop` on a concrete
stream. -/
theorem read_write_locks_disjoint_witness :
    locksOf OpKind.stop = [LockId.wsLock] ∧
    (locksOf OpKind.readNext).inter (locksOf OpKind.stop) = [] ∧
    (((TranscribeStream.new "abc").read_next none).2).ws = (TranscribeStream.new "abc").ws :=
  ⟨read_write_locks_disjoint.2.1 OpKind.stop (by decide),
   read_write_locks_disjoint.2.2.1 OpKind.stop (by decide),
   read_write_locks_disjoint.2.2.2 (TranscribeStream.new "abc") none⟩

/-- C7 counterexample: the string SPEED is not in the closed enumeration of
the three lowercase model names, yet both `create_session` and
`transcribe_upload` accept it and reach the network step, so the claim as
stated fails at this input. -/
theorem model_validation_counterexample :
    ("SPEED" ∉ (["speed", "quality", "quality_v2"] : List String)) ∧
    TranscribeStream.create_session "SPEED" "token" = (Except.ok ModelType.Speed, true) ∧
    TranscribeApi.transcribe_upload "a.wav" false false "SPEED" "token" =
      (Except.ok ModelType.Speed, true) := by
  refine ⟨by decide, rfl, rfl⟩

/-- C7 amended: membership in the enumeration is decided on the
ASCII-lowercased model string: when the lowercased string is one of the three
names, both `create_session` and `transcribe_upload` validate successfully
with the corresponding `ModelType` and reach the network step; when it is
not, both fail with a validation error and no network step is reached. -/
theorem model_validation_lowercased (model token filepath : String)
    (transcribe_only short_asr : Bool) :
    (to_ascii_lowercase model = "speed" →
      TranscribeStream.create_session model token = (Except.ok ModelType.Speed, true) ∧
      TranscribeApi.transcribe_upload filepath transcribe_only short_asr model token =
        (Except.ok ModelType.Speed, true)) ∧
    (to_ascii_lowercase model = "quality" →
      TranscribeStream.create_session model token = (Except.ok ModelType.Quality, true) ∧
      TranscribeApi.transcribe_upload filepath transcribe_only short_asr model token =
        (Except.ok ModelType.Quality, true)) ∧
    (to_ascii_lowercase model = "quality_v2" →
      TranscribeStream.create_session model token = (Except.ok ModelType.QualityV2, true) ∧
      TranscribeApi.transcribe_upload filepath transcribe_only short_asr model token =
        (Except.ok ModelType.QualityV2, true)) ∧
    (to_ascii_lowercase model ∉ (["speed", "quality", "quality_v2"] : List String) →
      TranscribeStream.create_session model token =
        (Except.error (Error.InvalidInput ("unsupported model " ++ to_ascii_lowercase model ++
          " (expected speed quality or quality_v2)")), false) ∧
      TranscribeApi.transcribe_upload filepath transcribe_only short_asr model token =
        (Except.error (Error.InvalidInput ("unsupported model " ++ to_ascii_lowercase model ++
          " (expected speed quality or quality_v2)")), false)) := by
  refine ⟨?_, ?_, ?_, ?_⟩ <;> intro h
  · constructor <;>
      simp [TranscribeStream.create_session, TranscribeApi.transcribe_upload, parse_model, h]
  · constructor <;>
      simp [TranscribeStream.create_session, TranscribeApi.transcribe_upload, parse_model, h]
  · constructor <;>
      simp [TranscribeStream.create_session, TranscribeApi.transcribe_upload, parse_model, h]
  · simp only [List.mem_cons, List.mem_singleton, List.not_mem_nil] at h
    push_neg at h
    obtain ⟨h1, h2, h3⟩ := h
    constructor <;>
      simp [TranscribeStream.create_session, TranscribeApi.transcribe_upload, parse_model,
        h1, h2, h3]

/-- Witness for C7 at the concrete rejected model string fast, through both
entry points. -/
theorem model_validation_lowercased_witness :
    (to_ascii_lowercase "fast" ∉ (["speed", "quality", "quality_v2"] : List String)) ∧
    TranscribeStream.create_session "fast" "token" =
      (Except.error (Error.InvalidInput ("unsupported model " ++ to_ascii_lowercase "fast" ++
        " (expected speed quality or quality_v2)")), false) ∧
    TranscribeApi.transcribe_upload "a.wav" false false "fast" "token" =
      (Except.error (Error.InvalidInput ("unsupported model " ++ to_ascii_lowercase "fast" ++
        " (expected speed quality or quality_v2)")), false) :=
  ⟨by decide,
   ((model_validation_lowercased "fast" "token" "a.wav" false false).2.2.2 (by decide)).1,
   ((model_validation_lowercased "fast" "token" "a.wav" false false).2.2.2 (by decide)).2⟩

/-- C9: each of the four string parsers decides on the ASCII-lowercased
input, so parsing the lowercased string gives the same result as parsing the
original. -/
theorem parsers_ascii_case_insensitive (s : String) :
    parse_model (to_ascii_lowercase s) = parse_model s ∧
    parse_export_type (to_ascii_lowercase s) = parse_export_type s ∧
    parse_export_format (to_ascii_lowercase s) = parse_export_format s ∧
    parse_language (to_ascii_lowercase s) = parse_language s := by
  have h := to_ascii_lowercase_idem s
  refine ⟨?_, ?_, ?_, ?_⟩ <;>
    simp [parse_model, parse_export_type, parse_export_format, parse_language, h]

/-- C10: a `read_next` whose timeout compares negatively with zero, which
includes every negative value and NaN, behaves exactly as a call with no
timeout at all: the filter discards it, and on an open subscription with no
pending frame the call stays suspended instead of failing or returning. -/
theorem negative_timeout_ignored (sub : Subscription) (tv : FloatVal)
    (h : FloatVal.ge0 tv = false) :
    sub.read_next (some tv) = sub.read_next none ∧
    (sub.cancelled = false → sub.pending = [] →
      (sub.read_next (some tv)).1 = ReadOutcome.blocks) := by
  have hd : (some tv).filter FloatVal.ge0 = none := by simp [Option.filter, h]
  constructor
  · unfold Subscription.read_next
    rw [hd]
    rfl
  · intro hc hp
    simp [Subscription.read_next, hd, hc, hp]

/-- Witness for C10 at the concrete timeout value negative one on a fresh
subscription. -/
theorem negative_timeout_ignored_witness :
    FloatVal.ge0 (FloatVal.val (-1)) = false ∧
    (Subscription.mk false []).read_next (some (FloatVal.val (-1))) =
      (Subscription.mk false []).read_next none ∧
    ((Subscription.mk false []).read_next (some (FloatVal.val (-1)))).1 =
      ReadOutcome.blocks :=
  ⟨by decide,
   (negative_timeout_ignored (Subscription.mk false []) (FloatVal.val (-1)) (by decide)).1,
   (negative_timeout_ignored (Subscription.mk false []) (FloatVal.val (-1)) (by decide)).2
     rfl rfl⟩

end Dianya
